import Mathlib

/-!
Verification of the container-runtime-config controller
(pkg/controller/container-runtime-config/container_runtime_config_controller.go).

The Go controller is shallowly embedded below: pure decision logic is
translated directly; interactions with the cluster state store (gets, deletes,
creates, updates) are made explicit by passing their results or the relevant
portion of the store as parameters, and the effects of a synchronization pass
are returned as an explicit outcome value (error returned to the work queue,
trace of major steps taken, and the status object written back).
-/

set_option autoImplicit false

namespace CtrCfg

/-- Condition type of a status condition: ContainerRuntimeConfigSuccess or
ContainerRuntimeConfigFailure from the mcfgv1 API. -/
inductive CondType
  | success
  | failure
  deriving DecidableEq, Repr

/-- One record of the ordered status-condition list of a
ContainerRuntimeConfig: type, status, message and timestamp
(mcfgv1.ContainerRuntimeConfigCondition). -/
structure StatusCondition where
  ctype : CondType
  condStatus : Bool
  message : String
  timestamp : Nat
  deriving DecidableEq, Repr

/-- metav1.LabelSelector restricted to its MatchLabels part (the controller
only ever feeds the selector to LabelSelectorAsSelector and then to
Empty and Matches; MatchExpressions would add requirements of the same
shape and are not needed by any claim). -/
structure LabelSelector where
  matchLabels : List (String × String)
  deriving DecidableEq, Repr

/-- labels.Selector as the external k8s labels library exposes it to this
code: either the Nothing selector (Matches nothing, Empty is false) or an
internal requirement-list selector (the empty requirement list is
labels.Everything, whose Empty is true). -/
inductive Selector
  | nothingSel
  | internalSel (reqs : List (String × String))
  deriving DecidableEq, Repr

/-- metav1.LabelSelectorAsSelector: a nil LabelSelector maps to
labels.Nothing, a non-nil one to the requirement-list selector built from its
match labels (empty list = labels.Everything). -/
def labelSelectorAsSelector : Option LabelSelector → Selector
  | none => Selector.nothingSel
  | some ps => Selector.internalSel ps.matchLabels

/-- labels.Selector.Empty: true only for an internal selector with no
requirements (labels.Everything); Nothing reports false. -/
def Selector.isEmptySel : Selector → Bool
  | Selector.nothingSel => false
  | Selector.internalSel reqs => reqs.isEmpty

/-- labels.Selector.Matches on a label set: Nothing matches no label set; an
internal selector matches when every required key/value pair is present. -/
def Selector.matchesLabels : Selector → List (String × String) → Bool
  | Selector.nothingSel, _ => false
  | Selector.internalSel reqs, lbls => reqs.all (fun kv => lbls.contains kv)

/-- Status of a ContainerRuntimeConfig: observed generation plus the ordered
condition list. -/
structure CtrCfgStatus where
  observedGeneration : Int
  conditions : List StatusCondition
  deriving DecidableEq, Repr

/-- The fields of mcfgv1.ContainerRuntimeConfig the controller reads or
writes: object meta (name, deletion timestamp, finalizers, annotation map as
an association list), the pool selector from the spec, the generation
counter, and the status. -/
structure ContainerRuntimeConfig where
  name : String
  generation : Int
  deletionTimestamp : Option Nat
  finalizers : List String
  annots : List (String × String)
  machineConfigPoolSelector : Option LabelSelector
  status : CtrCfgStatus
  deriving DecidableEq, Repr

/-- A MachineConfigPool as this controller sees it: a name (used as the role)
and a label set. -/
structure Pool where
  name : String
  labels : List (String × String)
  deriving DecidableEq, Repr

/-- maxRetries: the number of times a key is retried before it is dropped out
of the queue. -/
def maxRetries : Nat := 15

/-- Modelled from the spec: wrapErrorWithCondition lives outside the given
source files. Per the spec, a reconciliation pass finishes by recording a
status condition, success or the first error encountered: a nil error maps to
a success condition and a non-nil error to a failure condition carrying the
error message. -/
def wrapErrorWithCondition (err : Option String) (ts : Nat) : StatusCondition :=
  match err with
  | none => { ctype := CondType.success, condStatus := true, message := "Success", timestamp := ts }
  | some m => { ctype := CondType.failure, condStatus := true, message := m, timestamp := ts }

/-- The condition-list update of syncStatusOnly (lines 442 to 446): append
the new condition if the list is empty or its message differs from the last
recorded message; otherwise overwrite the last entry in place. -/
def recordCondition (conds : List StatusCondition) (c : StatusCondition) : List StatusCondition :=
  match conds.getLast? with
  | none => conds ++ [c]
  | some last =>
    if c.message ≠ last.message then conds ++ [c]
    else conds.dropLast ++ [c]

/-- syncStatusOnly: updates the observed generation to the object generation,
records the wrapped condition via the dedup-by-message policy, and returns
the very error it was given (the status write error itself is only logged).
The returned pair is (object as written back, value returned to the caller). -/
def syncStatusOnly (cfg : ContainerRuntimeConfig) (err : Option String) (ts : Nat) :
    ContainerRuntimeConfig × Option String :=
  let newCond := wrapErrorWithCondition err ts
  let cfg2 : ContainerRuntimeConfig :=
    { cfg with status :=
        { observedGeneration := cfg.generation
          conditions := recordCondition cfg.status.conditions newCond } }
  (cfg2, err)

/-- The addAnnotation step of the controller: the fresh copy of the object
has SetAnnotations called on it with a single-entry map, replacing the whole
annotation map of the object before it is written back. -/
def addAnnot (cfg : ContainerRuntimeConfig) (key val : String) : ContainerRuntimeConfig :=
  { cfg with annots := [(key, val)] }

/-- Annotation lookup on the association-list representation of the map. -/
def lookupAnnot (cfg : ContainerRuntimeConfig) (key : String) : Option String :=
  (cfg.annots.find? (fun kv => kv.1 == key)).map (fun kv => kv.2)

/-- The pool filter of getPoolsForContainerRuntimeConfig (lines 1092 to
1099): a pool is kept unless the selector is empty or does not match its
labels. -/
def matchedPools (cfg : ContainerRuntimeConfig) (pList : List Pool) : List Pool :=
  let selector := labelSelectorAsSelector cfg.machineConfigPoolSelector
  pList.filter (fun p => !(selector.isEmptySel || !(selector.matchesLabels p.labels)))

/-- getPoolsForContainerRuntimeConfig: filter the listed pools through the
intent selector; zero matches is reported as an error, never as an empty
result. -/
def getPoolsForContainerRuntimeConfig (cfg : ContainerRuntimeConfig) (pList : List Pool) :
    Except String (List Pool) :=
  if (matchedPools cfg pList).length = 0 then
    Except.error ("could not find any MachineConfigPool set for ContainerRuntimeConfig " ++ cfg.name)
  else Except.ok (matchedPools cfg pList)

/-- popFinalizerFromContainerRuntimeConfig, by its effect on the stored
object: the three-way merge patch replaces the finalizer list with the list
minus its first token (append of Finalizers sliced to zero and Finalizers
from index one). -/
def popFinalizerFromContainerRuntimeConfig (cfg : ContainerRuntimeConfig) : ContainerRuntimeConfig :=
  { cfg with finalizers := cfg.finalizers.drop 1 }

/-- cascadeDelete: with no finalizers, nothing to do. Otherwise the first
finalizer token names the owned MachineConfig; it is deleted from the store
(a NotFound result is treated as success; any other deletion error, injected
here as deleteOtherErr, is returned to the caller), and then the first
finalizer is popped. The store is the list of MachineConfig names. -/
def cascadeDelete (cfg : ContainerRuntimeConfig) (store : List String) (deleteOtherErr : Bool) :
    Except String (ContainerRuntimeConfig × List String) :=
  match cfg.finalizers with
  | [] => Except.ok (cfg, store)
  | mcName :: _ =>
    if deleteOtherErr then Except.error "machine config delete failed"
    else Except.ok (popFinalizerFromContainerRuntimeConfig cfg,
      store.filter (fun s => !(s == mcName)))

/-- The operations handleErr can apply to the work queue for one key. -/
inductive QueueOp
  | forget
  | addRateLimited
  | surfaceError
  | addAfterOneMinute
  deriving DecidableEq, Repr

/-- handleErr (lines 347 to 363): nil error forgets the key; a non-nil error
re-adds rate-limited while the requeue count is under maxRetries, and
otherwise surfaces the error, forgets the key and re-adds it once after one
minute. -/
def handleErr (errNil : Bool) (numRequeues : Nat) : List QueueOp :=
  if errNil then [QueueOp.forget]
  else if numRequeues < maxRetries then [QueueOp.addRateLimited]
  else [QueueOp.surfaceError, QueueOp.forget, QueueOp.addAfterOneMinute]

/-- The skip decision of syncContainerRuntimeConfig (lines 553 to 559) for
one pool, returning ok true when the pool is skipped (continue), ok false
when regeneration proceeds, and error when the Go code would panic: the
guard evaluates Conditions at index length minus one with no emptiness
check. -/
def skipRegenCheck (isNotFound : Bool) (cfg : ContainerRuntimeConfig)
    (mcAnnotVersion versionHash : String) : Except Unit Bool :=
  if isNotFound = false ∧ cfg.status.observedGeneration ≥ cfg.generation then
    match cfg.status.conditions.getLast? with
    | none => Except.error ()
    | some c =>
      if c.ctype = CondType.success then Except.ok (decide (mcAnnotVersion = versionHash))
      else Except.ok false
  else Except.ok false

/-- The drift/skip decision of syncImageConfig (lines 774 to 782): true when
the write is skipped (applied set to false and nil returned before any
create or update), which requires an existing MachineConfig whose raw config
bytes deep-equal the freshly rendered ones and whose generated-by annotation
equals the running controller version hash. -/
def syncImageConfigSkipCheck (isNotFound : Bool) (rawNew rawExisting : List Nat)
    (mcCtrlVersion versionHash : String) : Bool :=
  if isNotFound = false ∧ rawNew = rawExisting then decide (mcCtrlVersion = versionHash)
  else false

/-- Modelled from the spec: getManagedKeySeccomp lives outside the given
source files; per the spec the artifact key is a deterministic function of
the pool role. Its exact shape is irrelevant to the claims. -/
def getManagedKeySeccomp (pool : Pool) : String :=
  "99-" ++ pool.name ++ "-generated-crio-seccomp-use-default"

/-- The store context createSeccompUseDefaultMC runs against: the result of
the marker config-map get (a non-NotFound error, or whether the marker
exists), the built-in pools listed, and the MachineConfig names already in
the store. -/
structure SeccompEnv where
  markerGetErr : Option String
  markerExists : Bool
  pools : List Pool
  existingMCs : List String
  deriving DecidableEq, Repr

/-- createSeccompUseDefaultMC: a failing marker config-map get aborts; if the
marker config map exists the MachineConfig was already created and nothing is
done; otherwise the seccomp MachineConfig is created for every listed pool
whose managed key is absent from the store (and the marker config map is then
created). Returns the names of the MachineConfigs created. -/
def createSeccompUseDefaultMC (env : SeccompEnv) : Except String (List String) :=
  match env.markerGetErr with
  | some e =>
    Except.error ("error checking for crio-seccomp-use-default-when-empty config map: " ++ e)
  | none =>
    if env.markerExists then Except.ok []
    else
      Except.ok ((env.pools.filter
        (fun p => !(env.existingMCs.contains (getManagedKeySeccomp p)))).map getManagedKeySeccomp)

/-- Result of resolving the intent object by name from the lister cache. -/
inductive LookupResult
  | notFound
  | errOther (e : String)
  | found (cfg : ContainerRuntimeConfig)
  deriving DecidableEq, Repr

/-- The major steps of one syncContainerRuntimeConfig pass, in the order the
code performs them. -/
inductive SyncAction
  | ensureSeccomp
  | resolveIntent
  | runCascade
  | runValidate
  | resolvePools
  | processPools
  | recordStatus
  deriving DecidableEq, Repr

/-- Observable outcome of one synchronization pass: the value returned to the
dispatch queue (none = success), the trace of major steps, and the intent
object as last written back by syncStatusOnly (none when no status write
happened). -/
structure SyncOutcome where
  result : Option String
  trace : List SyncAction
  written : Option ContainerRuntimeConfig
  deriving DecidableEq, Repr

/-- syncContainerRuntimeConfig after the seccomp-ensure step: the sentinel
key returns immediately; otherwise the intent is resolved (NotFound is
success), a deletion timestamp routes to cascadeDelete, validation failure
routes to syncStatusOnly with the validation error, pool resolution failure
routes to syncStatusOnly with its error, and otherwise the per-pool loop
(abstracted by its first error, loopErr) finishes with a final
syncStatusOnly. Validation is passed as its result (none = valid), as the
validation helper lives outside the given source files. -/
def syncRest (key : String) (lookup : LookupResult) (validation : Option String)
    (pList : List Pool) (store : List String) (deleteOtherErr : Bool)
    (loopErr : Option String) (ts : Nat) : SyncOutcome :=
  if key = "force-sync-on-upgrade" then { result := none, trace := [], written := none }
  else
    match lookup with
    | LookupResult.notFound =>
      { result := none, trace := [SyncAction.resolveIntent], written := none }
    | LookupResult.errOther e =>
      { result := some e, trace := [SyncAction.resolveIntent], written := none }
    | LookupResult.found cfg =>
      if cfg.deletionTimestamp.isSome then
        if 0 < cfg.finalizers.length then
          match cascadeDelete cfg store deleteOtherErr with
          | Except.error e =>
            { result := some e, trace := [SyncAction.resolveIntent, SyncAction.runCascade],
              written := none }
          | Except.ok _ =>
            { result := none, trace := [SyncAction.resolveIntent, SyncAction.runCascade],
              written := none }
        else { result := none, trace := [SyncAction.resolveIntent], written := none }
      else
        match validation with
        | some e =>
          { result := (syncStatusOnly cfg (some e) ts).2
            trace := [SyncAction.resolveIntent, SyncAction.runValidate, SyncAction.recordStatus]
            written := some (syncStatusOnly cfg (some e) ts).1 }
        | none =>
          match getPoolsForContainerRuntimeConfig cfg pList with
          | Except.error e =>
            { result := (syncStatusOnly cfg (some e) ts).2
              trace := [SyncAction.resolveIntent, SyncAction.runValidate,
                SyncAction.resolvePools, SyncAction.recordStatus]
              written := some (syncStatusOnly cfg (some e) ts).1 }
          | Except.ok _ =>
            match loopErr with
            | some e =>
              { result := (syncStatusOnly cfg (some e) ts).2
                trace := [SyncAction.resolveIntent, SyncAction.runValidate,
                  SyncAction.resolvePools, SyncAction.processPools, SyncAction.recordStatus]
                written := some (syncStatusOnly cfg (some e) ts).1 }
            | none =>
              { result := (syncStatusOnly cfg none ts).2
                trace := [SyncAction.resolveIntent, SyncAction.runValidate,
                  SyncAction.resolvePools, SyncAction.processPools, SyncAction.recordStatus]
                written := some (syncStatusOnly cfg none ts).1 }

/-- syncContainerRuntimeConfig: every pass first runs
createSeccompUseDefaultMC; a failure there is wrapped and returned before
anything else happens, and otherwise the pass continues with syncRest. -/
def syncContainerRuntimeConfig (senv : SeccompEnv) (key : String) (lookup : LookupResult)
    (validation : Option String) (pList : List Pool) (store : List String)
    (deleteOtherErr : Bool) (loopErr : Option String) (ts : Nat) : SyncOutcome :=
  match createSeccompUseDefaultMC senv with
  | Except.error e =>
    { result := some ("failed to create the crio-seccomp-use-default MC: " ++ e)
      trace := [SyncAction.ensureSeccomp]
      written := none }
  | Except.ok _ =>
    { result := (syncRest key lookup validation pList store deleteOtherErr loopErr ts).result
      trace :=
        SyncAction.ensureSeccomp ::
          (syncRest key lookup validation pList store deleteOtherErr loopErr ts).trace
      written := (syncRest key lookup validation pList store deleteOtherErr loopErr ts).written }

/-- Equation lemma: recording into an empty condition list appends. -/
theorem recordCondition_of_getLast_none (conds : List StatusCondition) (c : StatusCondition)
    (h : conds.getLast? = none) : recordCondition conds c = conds ++ [c] := by
  unfold recordCondition
  rw [h]

/-- Equation lemma: recording into a non-empty condition list compares the new
message with the last recorded one. -/
theorem recordCondition_of_getLast_some (conds : List StatusCondition) (c last : StatusCondition)
    (h : conds.getLast? = some last) :
    recordCondition conds c =
      if c.message ≠ last.message then conds ++ [c] else conds.dropLast ++ [c] := by
  unfold recordCondition
  rw [h]

/-- The condition recorded by recordCondition is always the last entry of the
resulting list, whether it was appended or overwrote the previous last. -/
theorem recordCondition_getLast (conds : List StatusCondition) (c : StatusCondition) :
    (recordCondition conds c).getLast? = some c := by
  cases h : conds.getLast? with
  | none => rw [recordCondition_of_getLast_none conds c h, List.getLast?_concat]
  | some last =>
    rw [recordCondition_of_getLast_some conds c last h]
    by_cases hm : c.message ≠ last.message
    · rw [if_pos hm, List.getLast?_concat]
    · rw [if_neg hm, List.getLast?_concat]

/-- Folding recordCondition over conditions that all carry one fixed message,
starting from a one-element list whose entry also carries that message, keeps
the list at exactly one element with that message. -/
theorem foldl_recordCondition_same (cs : List StatusCondition) (m : String) :
    ∀ l : StatusCondition, (∀ c ∈ cs, c.message = m) → l.message = m →
    ∃ r, cs.foldl recordCondition [l] = [r] ∧ r.message = m := by
  induction cs with
  | nil => intro l _ hl; exact ⟨l, rfl, hl⟩
  | cons c cs ih =>
    intro l hcs hl
    have hc : c.message = m := hcs c (by simp)
    have hstep : recordCondition [l] c = [c] := by
      rw [recordCondition_of_getLast_some [l] c l (List.getLast?_singleton l),
        if_neg (by simp [hc, hl])]
      rfl
    rw [List.foldl_cons, hstep]
    exact ih c (fun c2 hc2 => hcs c2 (by simp [hc2])) hc

/-- C4: status recording appends a new condition only when the list is empty
or the new message differs from the last recorded message, and otherwise
overwrites the last entry in place; consequently N consecutive recordings of
one fixed message starting from the empty list leave a list of length exactly
one. -/
theorem c4_status_condition_recording :
    (∀ (conds : List StatusCondition) (c : StatusCondition),
        (conds.getLast? = none ∨ ∃ last, conds.getLast? = some last ∧ c.message ≠ last.message) →
        recordCondition conds c = conds ++ [c]) ∧
    (∀ (conds : List StatusCondition) (c last : StatusCondition),
        conds.getLast? = some last → c.message = last.message →
        recordCondition conds c = conds.dropLast ++ [c]) ∧
    (∀ (cs : List StatusCondition) (m : String), cs ≠ [] → (∀ c ∈ cs, c.message = m) →
        (cs.foldl recordCondition []).length = 1) := by
  refine ⟨?_, ?_, ?_⟩
  · intro conds c h
    rcases h with h | ⟨last, hl, hm⟩
    · exact recordCondition_of_getLast_none conds c h
    · rw [recordCondition_of_getLast_some conds c last hl, if_pos hm]
  · intro conds c last hl hm
    rw [recordCondition_of_getLast_some conds c last hl, if_neg (by simp [hm])]
  · intro cs m hne hall
    match cs, hne with
    | c :: cs2, _ =>
      have h0 : recordCondition [] c = [c] := recordCondition_of_getLast_none [] c rfl
      rw [List.foldl_cons, h0]
      obtain ⟨r, hr, _⟩ :=
        foldl_recordCondition_same cs2 m c (fun c2 h => hall c2 (by simp [h])) (hall c (by simp))
      rw [hr]
      rfl

/-- Witness for C4 at a concrete run: two consecutive failures with the same
message, starting from an empty condition list, leave exactly one condition. -/
theorem c4_status_condition_recording_witness :
    ([{ ctype := CondType.failure, condStatus := true, message := "boom", timestamp := 1 },
      { ctype := CondType.failure, condStatus := true, message := "boom", timestamp := 2 }] :
        List StatusCondition) ≠ [] ∧
    (([{ ctype := CondType.failure, condStatus := true, message := "boom", timestamp := 1 },
       { ctype := CondType.failure, condStatus := true, message := "boom", timestamp := 2 }] :
        List StatusCondition).foldl recordCondition []).length = 1 :=
  ⟨by decide,
    c4_status_condition_recording.2.2
      [{ ctype := CondType.failure, condStatus := true, message := "boom", timestamp := 1 },
       { ctype := CondType.failure, condStatus := true, message := "boom", timestamp := 2 }]
      "boom" (by decide) (by decide)⟩

/-- C5: a nil or empty pool selector matches zero pools (never all pools),
and whenever zero pools match, pool resolution returns an error rather than
an empty result. -/
theorem c5_selector_safety :
    (∀ (cfg : ContainerRuntimeConfig) (pList : List Pool),
        (cfg.machineConfigPoolSelector = none ∨
          cfg.machineConfigPoolSelector = some { matchLabels := [] }) →
        matchedPools cfg pList = [] ∧
        getPoolsForContainerRuntimeConfig cfg pList =
          Except.error
            ("could not find any MachineConfigPool set for ContainerRuntimeConfig " ++ cfg.name)) ∧
    (∀ (cfg : ContainerRuntimeConfig) (pList pools : List Pool),
        getPoolsForContainerRuntimeConfig cfg pList = Except.ok pools → pools ≠ []) := by
  constructor
  · intro cfg pList h
    have hmp : matchedPools cfg pList = [] := by
      rcases h with h | h <;>
        simp [matchedPools, h, labelSelectorAsSelector, Selector.isEmptySel,
          Selector.matchesLabels]
    exact ⟨hmp, by simp [getPoolsForContainerRuntimeConfig, hmp]⟩
  · intro cfg pList pools h
    unfold getPoolsForContainerRuntimeConfig at h
    split at h
    · exact absurd h (by simp)
    · next hlen =>
      intro hnil
      cases h
      exact hlen (by simp [hnil])

/-- Witness for C5 at a concrete input: a nil selector matches no pool and
resolution errors out, even with pools present. -/
theorem c5_selector_safety_witness :
    matchedPools
      { name := "nilsel", generation := 1, deletionTimestamp := none, finalizers := [],
        annots := [], machineConfigPoolSelector := none,
        status := { observedGeneration := 0, conditions := [] } }
      [{ name := "worker", labels := [("node-role", "worker")] }] = [] ∧
    getPoolsForContainerRuntimeConfig
      { name := "nilsel", generation := 1, deletionTimestamp := none, finalizers := [],
        annots := [], machineConfigPoolSelector := none,
        status := { observedGeneration := 0, conditions := [] } }
      [{ name := "worker", labels := [("node-role", "worker")] }] =
      Except.error "could not find any MachineConfigPool set for ContainerRuntimeConfig nilsel" :=
  c5_selector_safety.1
    { name := "nilsel", generation := 1, deletionTimestamp := none, finalizers := [],
      annots := [], machineConfigPoolSelector := none,
      status := { observedGeneration := 0, conditions := [] } }
    [{ name := "worker", labels := [("node-role", "worker")] }] (Or.inl rfl)

/-- C6: the queue error handler re-adds a failed key rate-limited while its
requeue count is under the ceiling of 15; at the ceiling it surfaces the
error, clears the retry counter and re-adds the key exactly once after a
one-minute delay; a nil error clears the retry counter. -/
theorem c6_retry_policy :
    (∀ n : Nat, n < maxRetries → handleErr false n = [QueueOp.addRateLimited]) ∧
    (∀ n : Nat, maxRetries ≤ n →
        handleErr false n = [QueueOp.surfaceError, QueueOp.forget, QueueOp.addAfterOneMinute]) ∧
    (∀ n : Nat, handleErr true n = [QueueOp.forget]) := by
  refine ⟨?_, ?_, ?_⟩
  · intro n h
    simp [handleErr, h]
  · intro n h
    simp [handleErr, Nat.not_lt.mpr h]
  · intro n
    simp [handleErr]

/-- Witness for C6 at concrete retry counts. -/
theorem c6_retry_policy_witness :
    (3 < maxRetries ∧ handleErr false 3 = [QueueOp.addRateLimited]) ∧
    (maxRetries ≤ 15 ∧
      handleErr false 15 = [QueueOp.surfaceError, QueueOp.forget, QueueOp.addAfterOneMinute]) :=
  ⟨⟨by decide, c6_retry_policy.1 3 (by decide)⟩,
   ⟨by decide, c6_retry_policy.2.1 15 (by decide)⟩⟩

/-- C7: in the image-policy synchronizer, when the existing MachineConfig
payload is byte-identical to the freshly rendered one, the write is skipped
if and only if the recorded controller version equals the running one; a
version mismatch forces the rewrite even with identical content. -/
theorem c7_image_drift_skip_iff :
    ∀ (rawNew rawExisting : List Nat) (mcVer hash : String),
      rawNew = rawExisting →
      (syncImageConfigSkipCheck false rawNew rawExisting mcVer hash = true ↔ mcVer = hash) ∧
      (mcVer ≠ hash → syncImageConfigSkipCheck false rawNew rawExisting mcVer hash = false) := by
  intro rawNew rawExisting mcVer hash heq
  constructor
  · simp [syncImageConfigSkipCheck, heq]
  · intro hne
    simp [syncImageConfigSkipCheck, heq, hne]

/-- Witness for C7 at a concrete payload: identical bytes and identical
version hash skip the write; a differing hash does not. -/
theorem c7_image_drift_skip_iff_witness :
    syncImageConfigSkipCheck false [1, 2, 3] [1, 2, 3] "v1" "v1" = true ∧
    syncImageConfigSkipCheck false [1, 2, 3] [1, 2, 3] "v0" "v1" = false :=
  ⟨(c7_image_drift_skip_iff [1, 2, 3] [1, 2, 3] "v1" "v1" rfl).1.mpr rfl,
   (c7_image_drift_skip_iff [1, 2, 3] [1, 2, 3] "v0" "v1" rfl).2 (by decide)⟩

/-- C9: persisting the name-suffix annotation replaces the whole annotation
map of the intent object with the single-entry map, so any previously present
annotation under a different key is erased. -/
theorem c9_annot_update_replaces_map :
    ∀ (cfg : ContainerRuntimeConfig) (k v k2 v2 : String), k2 ≠ k →
      (addAnnot cfg k v).annots = [(k, v)] ∧
      lookupAnnot (addAnnot cfg k v) k2 = none ∧
      (k2, v2) ∉ (addAnnot cfg k v).annots := by
  intro cfg k v k2 v2 hne
  have hkk : (k == k2) = false := by
    simp only [beq_eq_false_iff_ne]
    exact Ne.symm hne
  refine ⟨rfl, ?_, ?_⟩
  · simp [lookupAnnot, addAnnot, List.find?, hkk]
  · simp [addAnnot, hne]

/-- Witness for C9 at a concrete object: an unrelated annotation present
before the update is gone afterwards. -/
theorem c9_annot_update_replaces_map_witness :
    (addAnnot
      { name := "crc9", generation := 1, deletionTimestamp := none, finalizers := [],
        annots := [("user-key", "user-val")], machineConfigPoolSelector := none,
        status := { observedGeneration := 0, conditions := [] } }
      "machineconfiguration.openshift.io/mc-name-suffix" "1").annots =
      [("machineconfiguration.openshift.io/mc-name-suffix", "1")] ∧
    lookupAnnot
      (addAnnot
        { name := "crc9", generation := 1, deletionTimestamp := none, finalizers := [],
          annots := [("user-key", "user-val")], machineConfigPoolSelector := none,
          status := { observedGeneration := 0, conditions := [] } }
        "machineconfiguration.openshift.io/mc-name-suffix" "1") "user-key" = none ∧
    ("user-key", "user-val") ∉
      (addAnnot
        { name := "crc9", generation := 1, deletionTimestamp := none, finalizers := [],
          annots := [("user-key", "user-val")], machineConfigPoolSelector := none,
          status := { observedGeneration := 0, conditions := [] } }
        "machineconfiguration.openshift.io/mc-name-suffix" "1").annots :=
  c9_annot_update_replaces_map
    { name := "crc9", generation := 1, deletionTimestamp := none, finalizers := [],
      annots := [("user-key", "user-val")], machineConfigPoolSelector := none,
      status := { observedGeneration := 0, conditions := [] } }
    "machineconfiguration.openshift.io/mc-name-suffix" "1" "user-key" "user-val" (by decide)

/-- Equation lemma: when the guard of the skip check holds but the condition
list is empty, the last-element read is out of range. -/
theorem skipRegenCheck_guard_none (isNotFound : Bool) (cfg : ContainerRuntimeConfig)
    (annot hash : String)
    (hg : isNotFound = false ∧ cfg.status.observedGeneration ≥ cfg.generation)
    (hl : cfg.status.conditions.getLast? = none) :
    skipRegenCheck isNotFound cfg annot hash = Except.error () := by
  unfold skipRegenCheck
  rw [if_pos hg, hl]

/-- Equation lemma: when the guard of the skip check holds and a last
condition exists, the outcome depends on its type and the version hashes. -/
theorem skipRegenCheck_guard_some (isNotFound : Bool) (cfg : ContainerRuntimeConfig)
    (annot hash : String) (c : StatusCondition)
    (hg : isNotFound = false ∧ cfg.status.observedGeneration ≥ cfg.generation)
    (hl : cfg.status.conditions.getLast? = some c) :
    skipRegenCheck isNotFound cfg annot hash =
      if c.ctype = CondType.success then Except.ok (decide (annot = hash)) else Except.ok false := by
  unfold skipRegenCheck
  rw [if_pos hg, hl]

/-- Equation lemma: when the guard of the skip check fails, regeneration
proceeds. -/
theorem skipRegenCheck_no_guard (isNotFound : Bool) (cfg : ContainerRuntimeConfig)
    (annot hash : String)
    (hg : ¬(isNotFound = false ∧ cfg.status.observedGeneration ≥ cfg.generation)) :
    skipRegenCheck isNotFound cfg annot hash = Except.ok false := by
  unfold skipRegenCheck
  rw [if_neg hg]

/-- C2: for a target pool, regeneration is skipped if and only if the
MachineConfig exists, the observed generation is at least the current
generation, the most recent status condition records success, and the
build-version annotation equals the running controller version; a
build-version mismatch alone forces a rewrite even when everything else is
current. -/
theorem c2_skip_condition_iff :
    ∀ (isNotFound : Bool) (cfg : ContainerRuntimeConfig) (annot hash : String),
      (skipRegenCheck isNotFound cfg annot hash = Except.ok true ↔
        (isNotFound = false ∧ cfg.status.observedGeneration ≥ cfg.generation ∧
          (∃ c, cfg.status.conditions.getLast? = some c ∧ c.ctype = CondType.success) ∧
          annot = hash)) ∧
      (∀ c, isNotFound = false → cfg.status.observedGeneration ≥ cfg.generation →
        cfg.status.conditions.getLast? = some c → c.ctype = CondType.success → annot ≠ hash →
        skipRegenCheck isNotFound cfg annot hash = Except.ok false) := by
  intro nf cfg annot hash
  constructor
  · constructor
    · intro h
      by_cases hg : nf = false ∧ cfg.status.observedGeneration ≥ cfg.generation
      · cases hl : cfg.status.conditions.getLast? with
        | none =>
          rw [skipRegenCheck_guard_none nf cfg annot hash hg hl] at h
          exact absurd h (by simp)
        | some c =>
          rw [skipRegenCheck_guard_some nf cfg annot hash c hg hl] at h
          by_cases hc : c.ctype = CondType.success
          · rw [if_pos hc] at h
            refine ⟨hg.1, hg.2, ⟨c, rfl, hc⟩, ?_⟩
            simpa using h
          · rw [if_neg hc] at h
            exact absurd h (by simp)
      · rw [skipRegenCheck_no_guard nf cfg annot hash hg] at h
        exact absurd h (by simp)
    · rintro ⟨h1, h2, ⟨c, hl, hc⟩, h4⟩
      rw [skipRegenCheck_guard_some nf cfg annot hash c ⟨h1, h2⟩ hl, if_pos hc]
      simp [h4]
  · intro c h1 h2 hl hc hne
    rw [skipRegenCheck_guard_some nf cfg annot hash c ⟨h1, h2⟩ hl, if_pos hc]
    simp [hne]

/-- A concrete success condition, as the last recorded condition of an intent
that finished its previous reconciliation cleanly. -/
def condSuccess0 : StatusCondition :=
  { ctype := CondType.success, condStatus := true, message := "Success", timestamp := 0 }

/-- A concrete intent whose observed generation covers its generation and
whose last condition is a success. -/
def cfgCurrent : ContainerRuntimeConfig :=
  { name := "crc2", generation := 1, deletionTimestamp := none, finalizers := [],
    annots := [], machineConfigPoolSelector := none,
    status := { observedGeneration := 1, conditions := [condSuccess0] } }

/-- Witness for C2 at a concrete object whose last condition is a success and
whose observed generation covers its generation: a build-version mismatch
alone yields regeneration rather than a skip. -/
theorem c2_skip_condition_iff_witness :
    cfgCurrent.status.observedGeneration ≥ cfgCurrent.generation ∧
    skipRegenCheck false cfgCurrent "old-hash" "new-hash" = Except.ok false :=
  ⟨by decide,
    (c2_skip_condition_iff false cfgCurrent "old-hash" "new-hash").2 condSuccess0
      rfl (by decide) (by simp [cfgCurrent]) rfl (by decide)⟩

/-- C8: when the MachineConfig exists and the observed generation covers the
current generation, the skip check reads the last status condition with no
emptiness guard: it hits the out-of-range read exactly when the condition
list is empty, so the pass is panic-free only for intents with a non-empty
condition list. -/
theorem c8_unguarded_last_condition_read :
    ∀ (cfg : ContainerRuntimeConfig) (annot hash : String),
      cfg.status.observedGeneration ≥ cfg.generation →
      (skipRegenCheck false cfg annot hash = Except.error () ↔ cfg.status.conditions = []) := by
  intro cfg annot hash hgen
  constructor
  · intro h
    cases hl : cfg.status.conditions.getLast? with
    | none => exact List.getLast?_eq_none_iff.mp hl
    | some c =>
      rw [skipRegenCheck_guard_some false cfg annot hash c ⟨rfl, hgen⟩ hl] at h
      by_cases hc : c.ctype = CondType.success
      · rw [if_pos hc] at h
        exact absurd h (by simp)
      · rw [if_neg hc] at h
        exact absurd h (by simp)
  · intro h
    have hl : cfg.status.conditions.getLast? = none := by rw [h]; rfl
    exact skipRegenCheck_guard_none false cfg annot hash ⟨rfl, hgen⟩ hl

/-- A concrete intent with an empty condition list but an observed generation
covering its generation. -/
def cfgEmptyConds : ContainerRuntimeConfig :=
  { name := "crc8", generation := 1, deletionTimestamp := none, finalizers := [],
    annots := [], machineConfigPoolSelector := none,
    status := { observedGeneration := 1, conditions := [] } }

/-- Witness for C8 at a concrete object with an empty condition list and the
guard satisfied: the skip check hits the out-of-range read. -/
theorem c8_unguarded_last_condition_read_witness :
    cfgEmptyConds.status.observedGeneration ≥ cfgEmptyConds.generation ∧
    skipRegenCheck false cfgEmptyConds "h" "h" = Except.error () :=
  ⟨by decide, (c8_unguarded_last_condition_read cfgEmptyConds "h" "h" (by decide)).mpr rfl⟩

/-- C3: for an intent with exactly one finalizer token, one successful
cascade pass deletes the artifact named by the token from the store (an
already-absent artifact is success), then pops the first finalizer leaving
zero finalizers; any non-NotFound deletion error is returned to the caller
for retry. -/
theorem c3_cascade_delete_single_finalizer :
    ∀ (cfg : ContainerRuntimeConfig) (store : List String) (a : String),
      cfg.finalizers = [a] →
      (cascadeDelete cfg store false =
        Except.ok (popFinalizerFromContainerRuntimeConfig cfg,
          store.filter (fun s => !(s == a))) ∧
        (popFinalizerFromContainerRuntimeConfig cfg).finalizers = [] ∧
        a ∉ store.filter (fun s => !(s == a))) ∧
      cascadeDelete cfg store true = Except.error "machine config delete failed" := by
  intro cfg store a hfin
  refine ⟨⟨?_, ?_, ?_⟩, ?_⟩
  · unfold cascadeDelete
    rw [hfin]
    rfl
  · simp [popFinalizerFromContainerRuntimeConfig, hfin]
  · simp [List.mem_filter]
  · unfold cascadeDelete
    rw [hfin]
    rfl

/-- A concrete intent being deleted, owning exactly one MachineConfig through
its single finalizer token. -/
def cfgOneFin : ContainerRuntimeConfig :=
  { name := "crc3", generation := 1, deletionTimestamp := some 5,
    finalizers := ["99-worker-generated-containerruntime"], annots := [],
    machineConfigPoolSelector := none,
    status := { observedGeneration := 1, conditions := [] } }

/-- Witness for C3 at a concrete intent owning one MachineConfig that is
present in the store. -/
theorem c3_cascade_delete_single_finalizer_witness :
    cfgOneFin.finalizers = ["99-worker-generated-containerruntime"] ∧
    cascadeDelete cfgOneFin ["99-worker-generated-containerruntime", "00-worker"] true =
      Except.error "machine config delete failed" :=
  ⟨rfl,
    (c3_cascade_delete_single_finalizer cfgOneFin
      ["99-worker-generated-containerruntime", "00-worker"]
      "99-worker-generated-containerruntime" rfl).2⟩

/-- C10: every synchronization pass, whatever its key, first runs the
seccomp-default ensure; the ensure is a no-op when the marker config map
exists; an ensure failure makes the whole pass return the wrapped error
before the intent is ever resolved; and for the sentinel key an ok ensure is
followed by immediate success with no further work. -/
theorem c10_seccomp_ensure_contract :
    (∀ (senv : SeccompEnv) (key : String) (lookup : LookupResult) (validation : Option String)
        (pList : List Pool) (store : List String) (dErr : Bool) (loopErr : Option String)
        (ts : Nat),
        (syncContainerRuntimeConfig senv key lookup validation pList store dErr
          loopErr ts).trace.head? = some SyncAction.ensureSeccomp) ∧
    (∀ (senv : SeccompEnv) (e key : String) (lookup : LookupResult) (validation : Option String)
        (pList : List Pool) (store : List String) (dErr : Bool) (loopErr : Option String)
        (ts : Nat),
        createSeccompUseDefaultMC senv = Except.error e →
        syncContainerRuntimeConfig senv key lookup validation pList store dErr loopErr ts =
          { result := some ("failed to create the crio-seccomp-use-default MC: " ++ e)
            trace := [SyncAction.ensureSeccomp]
            written := none }) ∧
    (∀ senv : SeccompEnv, senv.markerGetErr = none → senv.markerExists = true →
        createSeccompUseDefaultMC senv = Except.ok []) ∧
    (∀ (senv : SeccompEnv) (mcs : List String) (lookup : LookupResult)
        (validation : Option String) (pList : List Pool) (store : List String) (dErr : Bool)
        (loopErr : Option String) (ts : Nat),
        createSeccompUseDefaultMC senv = Except.ok mcs →
        syncContainerRuntimeConfig senv "force-sync-on-upgrade" lookup validation pList store
          dErr loopErr ts =
          { result := none, trace := [SyncAction.ensureSeccomp], written := none }) := by
  refine ⟨?_, ?_, ?_, ?_⟩
  · intro senv key lookup validation pList store dErr loopErr ts
    unfold syncContainerRuntimeConfig
    cases h : createSeccompUseDefaultMC senv with
    | error e => rfl
    | ok l => rfl
  · intro senv e key lookup validation pList store dErr loopErr ts h
    unfold syncContainerRuntimeConfig
    rw [h]
  · intro senv h1 h2
    unfold createSeccompUseDefaultMC
    rw [h1, if_pos h2]
  · intro senv mcs lookup validation pList store dErr loopErr ts h
    have hrest : syncRest "force-sync-on-upgrade" lookup validation pList store dErr loopErr ts =
        { result := none, trace := [], written := none } := by
      unfold syncRest
      rw [if_pos rfl]
    unfold syncContainerRuntimeConfig
    rw [h, hrest]

/-- Witness for C10: a failing marker check aborts the pass with the wrapped
error and a trace containing only the ensure step. -/
theorem c10_seccomp_ensure_contract_witness :
    createSeccompUseDefaultMC
      { markerGetErr := some "boom", markerExists := false, pools := [], existingMCs := [] } =
      Except.error ("error checking for crio-seccomp-use-default-when-empty config map: boom") ∧
    syncContainerRuntimeConfig
      { markerGetErr := some "boom", markerExists := false, pools := [], existingMCs := [] }
      "openshift-crc" LookupResult.notFound none [] [] false none 0 =
      { result := some
          ("failed to create the crio-seccomp-use-default MC: " ++
            "error checking for crio-seccomp-use-default-when-empty config map: boom")
        trace := [SyncAction.ensureSeccomp]
        written := none } :=
  ⟨rfl,
    c10_seccomp_ensure_contract.2.1
      { markerGetErr := some "boom", markerExists := false, pools := [], existingMCs := [] }
      "error checking for crio-seccomp-use-default-when-empty config map: boom"
      "openshift-crc" LookupResult.notFound none [] [] false none 0 rfl⟩

/-- A seccomp environment whose marker config map already exists: the ensure
step succeeds without creating anything. -/
def senvMarkerOk : SeccompEnv :=
  { markerGetErr := none, markerExists := true, pools := [], existingMCs := [] }

/-- A concrete intent object whose spec fails validation (the validation
result is injected, as the validation helper lives outside the given source
files): not being deleted, generation ahead of the observed one. -/
def cfgInvalid : ContainerRuntimeConfig :=
  { name := "crc1", generation := 2, deletionTimestamp := none, finalizers := [],
    annots := [],
    machineConfigPoolSelector := some { matchLabels := [("custom-crio", "high-pid-limit")] },
    status := { observedGeneration := 0, conditions := [] } }

/-- C1 counterexample: at this concrete input the validation of the intent
fails, yet the value the pass hands back to the dispatch queue is the
validation error itself (syncStatusOnly returns the error it was given), so
the queue treats the pass as failed and re-adds the key rate-limited: the
claim that the returned value is not an error is false on the code. -/
theorem c1_counterexample_error_is_returned :
    (syncContainerRuntimeConfig senvMarkerOk "crc1" (LookupResult.found cfgInvalid)
        (some "invalid log level") [] [] false none 0).result = some "invalid log level" ∧
    handleErr false 0 = [QueueOp.addRateLimited] := by
  constructor
  · rfl
  · rfl

/-- C1 as amended: on validation failure the synchronizer records a failing
status condition carrying the validation error and stops before resolving
pools, but the value returned to the dispatch queue is that error, so the
key is retried as a transient failure (rate-limited while under the retry
ceiling). -/
theorem c1_validation_failure_recorded_and_retried :
    ∀ (senv : SeccompEnv) (mcs : List String) (key : String) (cfg : ContainerRuntimeConfig)
      (e : String) (pList : List Pool) (store : List String) (dErr : Bool)
      (loopErr : Option String) (ts n : Nat),
      createSeccompUseDefaultMC senv = Except.ok mcs →
      ¬key = "force-sync-on-upgrade" →
      cfg.deletionTimestamp = none →
      n < maxRetries →
      (syncContainerRuntimeConfig senv key (LookupResult.found cfg) (some e) pList store dErr
        loopErr ts).result = some e ∧
      SyncAction.resolvePools ∉
        (syncContainerRuntimeConfig senv key (LookupResult.found cfg) (some e) pList store dErr
          loopErr ts).trace ∧
      (∃ w, (syncContainerRuntimeConfig senv key (LookupResult.found cfg) (some e) pList store
          dErr loopErr ts).written = some w ∧
        ∃ c, w.status.conditions.getLast? = some c ∧ c.ctype = CondType.failure ∧
          c.message = e) ∧
      handleErr false n = [QueueOp.addRateLimited] := by
  intro senv mcs key cfg e pList store dErr loopErr ts n hOk hKey hDel hn
  have hrest : syncRest key (LookupResult.found cfg) (some e) pList store dErr loopErr ts =
      { result := (syncStatusOnly cfg (some e) ts).2
        trace := [SyncAction.resolveIntent, SyncAction.runValidate, SyncAction.recordStatus]
        written := some (syncStatusOnly cfg (some e) ts).1 } := by
    unfold syncRest
    rw [if_neg hKey]
    simp [hDel]
  have hall : syncContainerRuntimeConfig senv key (LookupResult.found cfg) (some e) pList store
      dErr loopErr ts =
      { result := (syncStatusOnly cfg (some e) ts).2
        trace := [SyncAction.ensureSeccomp, SyncAction.resolveIntent, SyncAction.runValidate,
          SyncAction.recordStatus]
        written := some (syncStatusOnly cfg (some e) ts).1 } := by
    unfold syncContainerRuntimeConfig
    rw [hOk, hrest]
  rw [hall]
  refine ⟨rfl, ?_, ⟨(syncStatusOnly cfg (some e) ts).1, rfl, ?_⟩, ?_⟩
  · show SyncAction.resolvePools ∉ [SyncAction.ensureSeccomp, SyncAction.resolveIntent,
      SyncAction.runValidate, SyncAction.recordStatus]
    decide
  · exact ⟨wrapErrorWithCondition (some e) ts,
      recordCondition_getLast cfg.status.conditions (wrapErrorWithCondition (some e) ts),
      rfl, rfl⟩
  · simp [handleErr, hn]

/-- Witness for the amended C1 at the concrete counterexample input. -/
theorem c1_validation_failure_witness :
    (createSeccompUseDefaultMC senvMarkerOk = Except.ok [] ∧
      ¬"crc1" = "force-sync-on-upgrade" ∧ cfgInvalid.deletionTimestamp = none ∧
      0 < maxRetries) ∧
    (syncContainerRuntimeConfig senvMarkerOk "crc1" (LookupResult.found cfgInvalid)
      (some "invalid log level") [] [] false none 0).result = some "invalid log level" :=
  ⟨⟨rfl, by decide, rfl, by decide⟩,
    (c1_validation_failure_recorded_and_retried senvMarkerOk [] "crc1" cfgInvalid
      "invalid log level" [] [] false none 0 0 rfl (by decide) rfl (by decide)).1⟩

end CtrCfg
